import Mathlib

/-!
Shallow embedding of the cart/checkout core of the `bellavibe` backend
(`src/vendas/vendas_router.rs`, `src/vendas/vendas_structs.rs`,
`src/produtos/produtos_structs.rs`).

Modelling choices, each grounded in the source:
* `BigDecimal` (exact decimal money) is embedded as `Rat`: decimal values and
  their products embed exactly in the rationals, as in the crate.
* `i32` fields (`produto_id`, `quantidade`, `estoque`) are embedded as `Int`;
  none of the verified properties approaches the `i32` range.
* The `produtos` table is a `List Produto`; `SELECT ... WHERE id = $1` with
  `fetch_optional` is the first row matching the id (`List.find?`), and
  `UPDATE produtos SET estoque = $1 WHERE id = $2` rewrites the `estoque`
  of every row matching the id.
* A database transaction is a working copy of the table: the copy becomes the
  committed state only when `commit` succeeds; every `rollback` (explicit in
  each error arm of `realizar_venda`) leaves the committed state untouched.
* Infrastructure failures (`begin`, per-item fetch `Err`, per-item update
  `Err`, `commit`) are injected through a `Faults` record, indexed by the
  loop iteration for the per-item ones.
* The cart (`Carrinho` behind an `RwLock`) is accessed in critical sections;
  each critical section of the source becomes one atomic step here.  In
  particular the emptiness check plus `std::mem::take` of `realizar_venda`
  is one write-locked block, embedded as the single atomic `drain_sacola`.
-/

deriving instance DecidableEq for Except

/-- Embeds `ItemVenda` from `vendas_structs.rs`: a cart line item. -/
structure ItemVenda where
  produto_id : Int
  quantidade : Int
deriving DecidableEq, Repr

/-- Embeds `Produto` from `produtos_structs.rs`: a row of the `produtos` table. -/
structure Produto where
  id : Int
  nome : String
  descricao : String
  preco : Rat
  estoque : Int
deriving DecidableEq, Repr

/-- Embeds `Carrinho` from `produtos_structs.rs`: the in-memory cart. -/
structure Carrinho where
  itens : List ItemVenda
deriving DecidableEq, Repr

/-- Embeds `VendaResponse` from `vendas_structs.rs`: the success payload. -/
structure VendaResponse where
  total_compra : Rat
  mensagem : String
deriving DecidableEq, Repr

/-- The distinguishable error outcomes of `realizar_venda`, one per error arm
of the source (each arm returns a distinct HTTP response after rolling back). -/
inductive VendaErro where
  | sacolaVazia
  | erroIniciarTransacao
  | produtoNaoEncontrado (produto_id : Int)
  | erroBuscarProduto
  | estoqueInsuficiente (nome : String)
  | erroAtualizarEstoque
  | erroComitar
deriving DecidableEq, Repr

/-- The error outcomes of `adicionar_item_sacola`. -/
inductive SacolaErro where
  | produtoNaoEncontrado (produto_id : Int)
  | erroVerificarProduto
deriving DecidableEq, Repr

/-- Injected infrastructure failures: transaction begin, per-item fetch error,
per-item stock-update error (both indexed by loop iteration), commit error. -/
structure Faults where
  beginFail : Bool
  fetchFail : Nat → Bool
  updateFail : Nat → Bool
  commitFail : Bool

/-- The fault assignment where the infrastructure never fails. -/
def fNone : Faults :=
  { beginFail := false, fetchFail := fun _ => false,
    updateFail := fun _ => false, commitFail := false }

/-- The whole state a checkout touches: the shared cart and the committed
`produtos` table. -/
structure EstadoVenda where
  carrinho : Carrinho
  produtos : List Produto
deriving DecidableEq, Repr

/-- Embeds `SELECT id, nome, descricao, preco, estoque FROM produtos WHERE
id = $1` with `fetch_optional`: the first row whose id matches. -/
def buscar_produto (db : List Produto) (pid : Int) : Option Produto :=
  db.find? (fun p => p.id == pid)

/-- Embeds `UPDATE produtos SET estoque = $1 WHERE id = $2`: every row whose
id matches gets the new stock value. -/
def atualizar_estoque (db : List Produto) (pid : Int) (novo : Int) : List Produto :=
  db.map (fun p => if p.id == pid then { p with estoque := novo } else p)

/-- Embeds the per-item loop of `realizar_venda` (`for item in
itens_venda.iter()`), acting on the transaction's working copy of the table:
fetch the product with a row lock, check `produto.estoque < item.quantidade`,
accumulate `preco * quantidade` into the total, write back
`estoque - quantidade`.  Any failure aborts with the corresponding error. -/
def venda_loop (f : Faults) :
    List ItemVenda → List Produto → Rat → Nat → Except VendaErro (Rat × List Produto)
  | [], db, total, _ => .ok (total, db)
  | item :: rest, db, total, i =>
    if f.fetchFail i then
      .error .erroBuscarProduto
    else
      match buscar_produto db item.produto_id with
      | none => .error (.produtoNaoEncontrado item.produto_id)
      | some produto =>
        if produto.estoque < item.quantidade then
          .error (.estoqueInsuficiente produto.nome)
        else
          if f.updateFail i then
            .error .erroAtualizarEstoque
          else
            venda_loop f rest
              (atualizar_estoque db item.produto_id (produto.estoque - item.quantidade))
              (total + produto.preco * (item.quantidade : Rat)) (i + 1)

/-- Embeds the write-locked block at the top of `realizar_venda`: under one
exclusive lock acquisition, check emptiness (returning the cart untouched)
or `std::mem::take` the items, leaving the cart empty. -/
def drain_sacola (c : Carrinho) : Option (List ItemVenda) × Carrinho :=
  if c.itens.isEmpty then (none, c) else (some c.itens, ⟨[]⟩)

/-- Embeds `realizar_venda`: drain the cart (empty cart fails before any
transaction is opened), begin a transaction, run the per-item loop on the
working copy, commit.  The committed table changes only on a successful
commit; every error arm rolls back, leaving the committed table as it was. -/
def realizar_venda (st : EstadoVenda) (f : Faults) :
    Except VendaErro VendaResponse × EstadoVenda :=
  match drain_sacola st.carrinho with
  | (none, _) => (.error .sacolaVazia, st)
  | (some itens, c) =>
    if f.beginFail then
      (.error .erroIniciarTransacao, { carrinho := c, produtos := st.produtos })
    else
      match venda_loop f itens st.produtos 0 0 with
      | .error e => (.error e, { carrinho := c, produtos := st.produtos })
      | .ok (total, db) =>
        if f.commitFail then
          (.error .erroComitar, { carrinho := c, produtos := st.produtos })
        else
          (.ok { total_compra := total, mensagem := "Venda processada e sacola limpa." },
           { carrinho := c, produtos := db })

/-- Embeds the merge loop of `adicionar_item_sacola`: walk the cart, add the
quantity onto the first item with the same `produto_id` and stop; if none
matches, push the new item at the end. -/
def merge_item : List ItemVenda → ItemVenda → List ItemVenda
  | [], item => [item]
  | x :: rest, item =>
    if x.produto_id == item.produto_id then
      { x with quantidade := x.quantidade + item.quantidade } :: rest
    else
      x :: merge_item rest item

/-- Embeds `adicionar_item_sacola`: look the product up in the database (an
infrastructure error or a missing product leaves the cart unchanged), then
merge the item into the cart under the write lock. -/
def adicionar_item_sacola (st : EstadoVenda) (item : ItemVenda) (dbFail : Bool) :
    Except SacolaErro Unit × EstadoVenda :=
  if dbFail then
    (.error .erroVerificarProduto, st)
  else
    match buscar_produto st.produtos item.produto_id with
    | some _ => (.ok (), { st with carrinho := ⟨merge_item st.carrinho.itens item⟩ })
    | none => (.error (.produtoNaoEncontrado item.produto_id), st)

/-- Embeds `ver_sacola`: a read-locked snapshot of the cart items; the state
is not modified. -/
def ver_sacola (st : EstadoVenda) : List ItemVenda :=
  st.carrinho.itens

/-- The committed stock of the product a fetch by `pid` would see. -/
def estoqueDe (db : List Produto) (pid : Int) : Option Int :=
  (buscar_produto db pid).map (fun p => p.estoque)

/-- The unit price of the product a fetch by `pid` would see. -/
def precoDe (db : List Produto) (pid : Int) : Option Rat :=
  (buscar_produto db pid).map (fun p => p.preco)

/-- Total quantity the cart requests for a given product id. -/
def qtdTotal : List ItemVenda → Int → Int
  | [], _ => 0
  | it :: rest, pid =>
    (if it.produto_id == pid then it.quantidade else 0) + qtdTotal rest pid

/-- Sum over the line items of `unit_price × quantity`, prices read from the
given table (missing products contribute nothing; a successful checkout
finds every product). -/
def somaSubtotais (db : List Produto) : List ItemVenda → Rat
  | [] => 0
  | it :: rest =>
    (match buscar_produto db it.produto_id with
     | some p => p.preco * (it.quantidade : Rat)
     | none => 0) + somaSubtotais db rest

/-- The requests that touch the shared cart: add an item (with a possible
database failure), view the cart, run a checkout (with injected faults). -/
inductive OpSacola where
  | adicionar (item : ItemVenda) (dbFail : Bool)
  | ver
  | venda (f : Faults)

/-- One request against the shared state, keeping only the resulting state. -/
def execOp (st : EstadoVenda) : OpSacola → EstadoVenda
  | .adicionar item dbFail => (adicionar_item_sacola st item dbFail).2
  | .ver => st
  | .venda f => (realizar_venda st f).2

/-- A sequence of requests, executed in order. -/
def execOps (st : EstadoVenda) (ops : List OpSacola) : EstadoVenda :=
  ops.foldl execOp st

/-- The cart invariant: at most one line item per distinct product id. -/
def semDuplicatas (itens : List ItemVenda) : Prop :=
  (itens.map (fun it => it.produto_id)).Nodup

/-- Two concurrent checkouts serialized by the cart's writer lock: each drain
critical section runs atomically, in one of the two orders; `aFirst` says
whether checkout A's drain is scheduled first.  Returns what A drained, what
B drained, and the final cart. -/
def dois_drains (c : Carrinho) (aFirst : Bool) :
    Option (List ItemVenda) × Option (List ItemVenda) × Carrinho :=
  if aFirst then
    ((drain_sacola c).1, (drain_sacola (drain_sacola c).2).1,
     (drain_sacola (drain_sacola c).2).2)
  else
    ((drain_sacola (drain_sacola c).2).1, (drain_sacola c).1,
     (drain_sacola (drain_sacola c).2).2)

/-- A stock update leaves every row's id untouched. -/
lemma atualizar_row_id (p : Produto) (pid novo : Int) :
    ((if p.id == pid then { p with estoque := novo } else p) : Produto).id = p.id := by
  split <;> rfl

/-- A stock update leaves every row's price untouched. -/
lemma atualizar_row_preco (p : Produto) (pid novo : Int) :
    ((if p.id == pid then { p with estoque := novo } else p) : Produto).preco = p.preco := by
  split <;> rfl

/-- Fetching after a stock update fetches the same row, updated. -/
lemma buscar_atualizar (db : List Produto) (pid novo pid2 : Int) :
    buscar_produto (atualizar_estoque db pid novo) pid2
      = (buscar_produto db pid2).map
          (fun p => if p.id == pid then { p with estoque := novo } else p) := by
  induction db with
  | nil => rfl
  | cons p l ih =>
    simp only [buscar_produto, atualizar_estoque, List.map_cons, List.find?_cons] at *
    rw [atualizar_row_id]
    cases hc : (p.id == pid2) with
    | true => simp
    | false => simpa using ih

/-- A stock update does not change any fetched price. -/
lemma precoDe_atualizar (db : List Produto) (pid novo pid2 : Int) :
    precoDe (atualizar_estoque db pid novo) pid2 = precoDe db pid2 := by
  simp only [precoDe, buscar_atualizar, Option.map_map]
  cases buscar_produto db pid2 with
  | none => rfl
  | some p =>
    simp only [Option.map_some', Function.comp]
    split <;> rfl

/-- A stock update does not change the subtotal sum of any item list. -/
lemma somaSubtotais_atualizar (db : List Produto) (pid novo : Int) (l : List ItemVenda) :
    somaSubtotais (atualizar_estoque db pid novo) l = somaSubtotais db l := by
  induction l with
  | nil => rfl
  | cons it rest ih =>
    simp only [somaSubtotais, ih, buscar_atualizar]
    cases buscar_produto db it.produto_id with
    | none => rfl
    | some p =>
      simp only [Option.map_some']
      have hp : ((if p.id == pid then { p with estoque := novo } else p) : Produto).preco
          = p.preco := atualizar_row_preco p pid novo
      rw [hp]

/-- Success of the per-item loop: every product's fetched stock drops by the
total quantity the processed items request, every fetched price is unchanged,
and the returned total is the initial accumulator plus the sum of subtotals. -/
lemma venda_loop_spec (f : Faults) (itens : List ItemVenda) :
    ∀ (db : List Produto) (total : Rat) (i : Nat) (t : Rat) (db2 : List Produto),
      venda_loop f itens db total i = .ok (t, db2) →
      (∀ pid, estoqueDe db2 pid = (estoqueDe db pid).map (fun s => s - qtdTotal itens pid)) ∧
      (∀ pid, precoDe db2 pid = precoDe db pid) ∧
      t = total + somaSubtotais db itens := by
  induction itens with
  | nil =>
    intro db total i t db2 h
    simp only [venda_loop, Except.ok.injEq, Prod.mk.injEq] at h
    obtain ⟨ht, hdb⟩ := h
    subst ht; subst hdb
    refine ⟨fun pid => ?_, fun pid => rfl, by simp [somaSubtotais]⟩
    simp [qtdTotal]
  | cons item rest ih =>
    intro db total i t db2 h
    simp only [venda_loop] at h
    by_cases hf : f.fetchFail i = true
    · rw [if_pos hf] at h; simp at h
    rw [if_neg hf] at h
    cases hb : buscar_produto db item.produto_id with
    | none => rw [hb] at h; simp at h
    | some produto =>
      rw [hb] at h
      dsimp only at h
      by_cases hst : produto.estoque < item.quantidade
      · rw [if_pos hst] at h; simp at h
      rw [if_neg hst] at h
      by_cases hu : f.updateFail i = true
      · rw [if_pos hu] at h; simp at h
      rw [if_neg hu] at h
      obtain ⟨h1, h2, h3⟩ := ih _ _ _ _ _ h
      refine ⟨fun pid => ?_, fun pid => ?_, ?_⟩
      · rw [h1 pid]
        simp only [estoqueDe, buscar_atualizar, Option.map_map]
        cases hq : buscar_produto db pid with
        | none => simp
        | some q =>
          have hq2 : db.find? (fun p => p.id == pid) = some q := hq
          have hqid : (q.id == pid) = true :=
            List.find?_some (p := fun r : Produto => r.id == pid) hq2
          have hqid' : q.id = pid := by simpa using hqid
          simp only [Option.map_some', Function.comp]
          by_cases hip : item.produto_id = pid
          · have hpq : produto = q := by
              rw [hip] at hb; rw [hb] at hq; injection hq
            have hbeq : (q.id == item.produto_id) = true := by
              simp [hqid', hip]
            have hqtd : qtdTotal (item :: rest) pid = item.quantidade + qtdTotal rest pid := by
              simp [qtdTotal, hip]
            simp [hbeq, hqid', hip, hpq, hqtd, sub_sub]
          · have : (q.id == item.produto_id) = false := by
              simp [hqid']
              exact fun hc => hip hc.symm
            simp only [this]
            have hqtd : qtdTotal (item :: rest) pid = qtdTotal rest pid := by
              simp only [qtdTotal]
              have : (item.produto_id == pid) = false := by simpa using hip
              simp [this]
            simp [hqtd]
      · rw [h2 pid, precoDe_atualizar]
      · rw [h3, somaSubtotais_atualizar]
        simp only [somaSubtotais, hb]
        ring

/-- Success of the per-item loop preserves non-negativity of all stocks. -/
lemma venda_loop_nonneg (f : Faults) (itens : List ItemVenda) :
    ∀ (db : List Produto) (total : Rat) (i : Nat) (t : Rat) (db2 : List Produto),
      venda_loop f itens db total i = .ok (t, db2) →
      (∀ p ∈ db, 0 ≤ p.estoque) → ∀ p ∈ db2, 0 ≤ p.estoque := by
  induction itens with
  | nil =>
    intro db total i t db2 h hnn
    simp only [venda_loop, Except.ok.injEq, Prod.mk.injEq] at h
    obtain ⟨ht, hdb⟩ := h
    subst hdb; exact hnn
  | cons item rest ih =>
    intro db total i t db2 h hnn
    simp only [venda_loop] at h
    by_cases hf : f.fetchFail i = true
    · rw [if_pos hf] at h; simp at h
    rw [if_neg hf] at h
    cases hb : buscar_produto db item.produto_id with
    | none => rw [hb] at h; simp at h
    | some produto =>
      rw [hb] at h
      dsimp only at h
      by_cases hst : produto.estoque < item.quantidade
      · rw [if_pos hst] at h; simp at h
      rw [if_neg hst] at h
      by_cases hu : f.updateFail i = true
      · rw [if_pos hu] at h; simp at h
      rw [if_neg hu] at h
      refine ih _ _ _ _ _ h ?_
      intro p hp
      simp only [atualizar_estoque, List.mem_map] at hp
      obtain ⟨q, hq, hqp⟩ := hp
      subst hqp
      by_cases hqi : q.id == item.produto_id
      · simp only [hqi, if_true]
        omega
      · simp only [hqi, if_false]
        · exact hnn q hq

/-- Exhaustive case analysis of a checkout run: the empty-cart early return,
the begin failure, a loop failure, a commit failure, or full success. -/
lemma realizar_venda_unfold (st : EstadoVenda) (f : Faults) :
    (st.carrinho.itens = [] ∧ realizar_venda st f = (.error .sacolaVazia, st)) ∨
    (st.carrinho.itens ≠ [] ∧
      ((f.beginFail = true ∧
          realizar_venda st f = (.error .erroIniciarTransacao, ⟨⟨[]⟩, st.produtos⟩)) ∨
       (f.beginFail = false ∧
          (∃ e, venda_loop f st.carrinho.itens st.produtos 0 0 = .error e ∧
            realizar_venda st f = (.error e, ⟨⟨[]⟩, st.produtos⟩))) ∨
       (f.beginFail = false ∧
          (∃ t db, venda_loop f st.carrinho.itens st.produtos 0 0 = .ok (t, db) ∧
            ((f.commitFail = true ∧
                realizar_venda st f = (.error .erroComitar, ⟨⟨[]⟩, st.produtos⟩)) ∨
             (f.commitFail = false ∧
                realizar_venda st f =
                  (.ok ⟨t, "Venda processada e sacola limpa."⟩, ⟨⟨[]⟩, db⟩))))))) := by
  by_cases hE : st.carrinho.itens.isEmpty
  · left
    have hnil : st.carrinho.itens = [] := by simpa using hE
    exact ⟨hnil, by simp [realizar_venda, drain_sacola, hE]⟩
  · right
    have hne : st.carrinho.itens ≠ [] := by simpa using hE
    refine ⟨hne, ?_⟩
    by_cases hbg : f.beginFail = true
    · left
      exact ⟨hbg, by simp [realizar_venda, drain_sacola, hE, hbg]⟩
    · have hbg2 : f.beginFail = false := by simpa using hbg
      cases hv : venda_loop f st.carrinho.itens st.produtos 0 0 with
      | error e =>
        right; left
        exact ⟨hbg2, e, rfl, by simp [realizar_venda, drain_sacola, hE, hbg2, hv]⟩
      | ok td =>
        obtain ⟨t, db⟩ := td
        right; right
        refine ⟨hbg2, t, db, rfl, ?_⟩
        by_cases hc : f.commitFail = true
        · left
          exact ⟨hc, by simp [realizar_venda, drain_sacola, hE, hbg2, hv, hc]⟩
        · right
          refine ⟨by simpa using hc, ?_⟩
          have hc2 : f.commitFail = false := by simpa using hc
          simp [realizar_venda, drain_sacola, hE, hbg2, hv, hc2]

/-- Every error outcome of a checkout leaves the committed table unchanged. -/
lemma realizar_venda_erro_produtos (st : EstadoVenda) (f : Faults) (e : VendaErro)
    (st2 : EstadoVenda) (h : realizar_venda st f = (.error e, st2)) :
    st2.produtos = st.produtos := by
  rcases realizar_venda_unfold st f with ⟨hnil, heq⟩ | ⟨hne, hrest⟩
  · rw [heq] at h; injection h with h1 h2; rw [← h2]
  · rcases hrest with ⟨hbg, heq⟩ | ⟨hbg, e2, hv, heq⟩ | ⟨hbg, t, db, hv, hcc⟩
    · rw [heq] at h; injection h with h1 h2; rw [← h2]
    · rw [heq] at h; injection h with h1 h2; rw [← h2]
    · rcases hcc with ⟨hc, heq⟩ | ⟨hc, heq⟩
      · rw [heq] at h; injection h with h1 h2; rw [← h2]
      · rw [heq] at h; injection h with h1 h2; exact absurd h1 (by simp)

/-- A successful checkout comes from a successful loop run and a successful
commit; the response and the final state are determined by the loop. -/
lemma realizar_venda_ok_inv (st : EstadoVenda) (f : Faults) (resp : VendaResponse)
    (st2 : EstadoVenda) (h : realizar_venda st f = (.ok resp, st2)) :
    st.carrinho.itens ≠ [] ∧
    ∃ t db, venda_loop f st.carrinho.itens st.produtos 0 0 = .ok (t, db) ∧
      resp = ⟨t, "Venda processada e sacola limpa."⟩ ∧ st2 = ⟨⟨[]⟩, db⟩ := by
  rcases realizar_venda_unfold st f with ⟨hnil, heq⟩ | ⟨hne, hrest⟩
  · rw [heq] at h; injection h with h1 h2; exact absurd h1 (by simp)
  · rcases hrest with ⟨hbg, heq⟩ | ⟨hbg, e2, hv, heq⟩ | ⟨hbg, t, db, hv, hcc⟩
    · rw [heq] at h; injection h with h1 h2; exact absurd h1 (by simp)
    · rw [heq] at h; injection h with h1 h2; exact absurd h1 (by simp)
    · rcases hcc with ⟨hc, heq⟩ | ⟨hc, heq⟩
      · rw [heq] at h; injection h with h1 h2; exact absurd h1 (by simp)
      · rw [heq] at h; injection h with h1 h2
        injection h1 with h3
        exact ⟨hne, t, db, hv, h3.symm, h2.symm⟩

/-- After draining a non-empty cart the cart stays empty, whatever happens. -/
lemma realizar_venda_carrinho (st : EstadoVenda) (f : Faults)
    (hne : st.carrinho.itens ≠ []) :
    (realizar_venda st f).2.carrinho.itens = [] := by
  rcases realizar_venda_unfold st f with ⟨hnil, heq⟩ | ⟨hne2, hrest⟩
  · exact absurd hnil hne
  · rcases hrest with ⟨hbg, heq⟩ | ⟨hbg, e2, hv, heq⟩ | ⟨hbg, t, db, hv, hcc⟩
    · rw [heq]
    · rw [heq]
    · rcases hcc with ⟨hc, heq⟩ | ⟨hc, heq⟩ <;> rw [heq]

/-- When no item of the cart carries the product id, the merge appends the
new item at the end. -/
lemma merge_item_ausente (l : List ItemVenda) (item : ItemVenda)
    (h : ∀ y ∈ l, y.produto_id ≠ item.produto_id) :
    merge_item l item = l ++ [item] := by
  induction l with
  | nil => rfl
  | cons x rest ih =>
    have hx : x.produto_id ≠ item.produto_id := h x (by simp)
    simp only [merge_item]
    rw [if_neg (by simpa using hx), List.cons_append]
    rw [ih (fun y hy => h y (by simp [hy]))]

/-- When the first item carrying the product id sits after a prefix free of
that id, the merge bumps exactly that item's quantity in place. -/
lemma merge_item_presente (l1 : List ItemVenda) (x : ItemVenda) (l2 : List ItemVenda)
    (item : ItemVenda) (h1 : ∀ y ∈ l1, y.produto_id ≠ item.produto_id)
    (hx : x.produto_id = item.produto_id) :
    merge_item (l1 ++ x :: l2) item
      = l1 ++ { x with quantidade := x.quantidade + item.quantidade } :: l2 := by
  induction l1 with
  | nil =>
    simp only [List.nil_append, merge_item]
    rw [if_pos (by simpa using hx)]
  | cons y rest ih =>
    have hy : y.produto_id ≠ item.produto_id := h1 y (by simp)
    simp only [List.cons_append, merge_item]
    rw [if_neg (by simpa using hy)]
    congr 1
    exact ih (fun z hz => h1 z (by simp [hz]))

/-- Every product id in a merged cart comes from the cart or is the added id. -/
lemma merge_item_ids (l : List ItemVenda) (item : ItemVenda) :
    ∀ a ∈ (merge_item l item).map (fun it => it.produto_id),
      a ∈ l.map (fun it => it.produto_id) ∨ a = item.produto_id := by
  induction l with
  | nil =>
    intro a ha
    simp only [merge_item, List.map_cons, List.map_nil] at ha
    right; simpa using ha
  | cons x rest ih =>
    intro a ha
    simp only [merge_item] at ha
    by_cases hx : (x.produto_id == item.produto_id) = true
    · rw [if_pos hx] at ha
      simp only [List.map_cons, List.mem_cons] at ha ⊢
      tauto
    · rw [if_neg hx] at ha
      simp only [List.map_cons, List.mem_cons] at ha ⊢
      rcases ha with h | h
      · tauto
      · rcases ih a h with h2 | h2 <;> tauto

/-- Merging preserves the no-duplicate-product-id invariant of the cart. -/
lemma merge_item_nodup (l : List ItemVenda) (item : ItemVenda)
    (h : (l.map (fun it => it.produto_id)).Nodup) :
    ((merge_item l item).map (fun it => it.produto_id)).Nodup := by
  induction l with
  | nil => simp [merge_item]
  | cons x rest ih =>
    simp only [List.map_cons, List.nodup_cons] at h
    obtain ⟨hx, hrest⟩ := h
    simp only [merge_item]
    by_cases hxy : (x.produto_id == item.produto_id) = true
    · rw [if_pos hxy]
      simp only [List.map_cons, List.nodup_cons]
      exact ⟨hx, hrest⟩
    · rw [if_neg hxy]
      simp only [List.map_cons, List.nodup_cons]
      refine ⟨?_, ih hrest⟩
      intro hmem
      rcases merge_item_ids rest item x.produto_id hmem with h2 | h2
      · exact hx h2
      · have hne : x.produto_id ≠ item.produto_id := by simpa using hxy
        exact hne h2

example :
    realizar_venda ⟨⟨[⟨1, 3⟩]⟩, [⟨1, "A", "d", 10, 5⟩]⟩ fNone
      = (.ok ⟨30, "Venda processada e sacola limpa."⟩,
         ⟨⟨[]⟩, [⟨1, "A", "d", 10, 2⟩]⟩) := by with_unfolding_all rfl

example :
    realizar_venda ⟨⟨[⟨1, 3⟩, ⟨2, 100⟩]⟩, [⟨1, "A", "d", 10, 5⟩, ⟨2, "B", "d", 1, 10⟩]⟩ fNone
      = (.error (.estoqueInsuficiente "B"),
         ⟨⟨[]⟩, [⟨1, "A", "d", 10, 5⟩, ⟨2, "B", "d", 1, 10⟩]⟩) := by with_unfolding_all rfl

/-- The merge of an item into any cart is never empty. -/
lemma merge_item_ne_nil (l : List ItemVenda) (item : ItemVenda) :
    merge_item l item ≠ [] := by
  cases l with
  | nil => simp [merge_item]
  | cons x rest =>
    simp only [merge_item]
    split <;> simp

/-- C1: a checkout is all-or-nothing on committed stock: every error outcome
leaves the committed table exactly as it was, and on success every product's
fetched stock drops by exactly the total quantity the drained cart requested
for its id (so every line item's product is decremented, and committed). -/
theorem venda_tudo_ou_nada (st : EstadoVenda) (f : Faults) :
    (∀ e st2, realizar_venda st f = (.error e, st2) → st2.produtos = st.produtos) ∧
    (∀ resp st2, realizar_venda st f = (.ok resp, st2) →
      ∀ pid, estoqueDe st2.produtos pid
        = (estoqueDe st.produtos pid).map (fun s => s - qtdTotal st.carrinho.itens pid)) := by
  constructor
  · exact fun e st2 h => realizar_venda_erro_produtos st f e st2 h
  · intro resp st2 h pid
    obtain ⟨hne, t, db, hv, hresp, hst2⟩ := realizar_venda_ok_inv st f resp st2 h
    obtain ⟨h1, h2, h3⟩ := venda_loop_spec f st.carrinho.itens st.produtos 0 0 t db hv
    rw [hst2]
    exact h1 pid

/-- Witness for C1 on a concrete successful run: one item of quantity 3 on a
product with stock 5 commits stock 2 = 5 − 3. -/
theorem venda_tudo_ou_nada_witness :
    estoqueDe [(⟨1, "A", "d", 10, 2⟩ : Produto)] 1
      = (estoqueDe [⟨1, "A", "d", 10, 5⟩] 1).map (fun s => s - qtdTotal [⟨1, 3⟩] 1) :=
  (venda_tudo_ou_nada ⟨⟨[⟨1, 3⟩]⟩, [⟨1, "A", "d", 10, 5⟩]⟩ fNone).2
    ⟨30, "Venda processada e sacola limpa."⟩ ⟨⟨[]⟩, [⟨1, "A", "d", 10, 2⟩]⟩
    (by with_unfolding_all rfl) 1

/-- C2: the response of every successful checkout is exactly the sum over the
line items of unit price × quantity, in exact rational arithmetic, together
with the fixed success message (the source string for "sale processed"). -/
theorem venda_total_exato (st : EstadoVenda) (f : Faults) (resp : VendaResponse)
    (st2 : EstadoVenda) (h : realizar_venda st f = (.ok resp, st2)) :
    resp = ⟨somaSubtotais st.produtos st.carrinho.itens,
            "Venda processada e sacola limpa."⟩ := by
  obtain ⟨hne, t, db, hv, hresp, hst2⟩ := realizar_venda_ok_inv st f resp st2 h
  obtain ⟨h1, h2, h3⟩ := venda_loop_spec f st.carrinho.itens st.produtos 0 0 t db hv
  rw [hresp, h3, zero_add]

/-- Witness for C2: price 19.99 and quantity 3 give exactly 59.97. -/
theorem venda_total_exato_witness :
    (somaSubtotais [(⟨1, "A", "d", 1999/100, 5⟩ : Produto)] [⟨1, 3⟩] = 5997/100) ∧
    ((⟨5997/100, "Venda processada e sacola limpa."⟩ : VendaResponse)
      = ⟨somaSubtotais [⟨1, "A", "d", 1999/100, 5⟩] [⟨1, 3⟩],
         "Venda processada e sacola limpa."⟩) :=
  ⟨by with_unfolding_all rfl,
   venda_total_exato ⟨⟨[⟨1, 3⟩]⟩, [⟨1, "A", "d", 1999/100, 5⟩]⟩ fNone
     ⟨5997/100, "Venda processada e sacola limpa."⟩
     ⟨⟨[]⟩, [⟨1, "A", "d", 1999/100, 2⟩]⟩ (by with_unfolding_all rfl)⟩

/-- C3: checkout never commits a negative stock: if every committed stock is
non-negative before the call, every committed stock is non-negative after it,
whatever the outcome (the value written back is the guarded
`estoque - quantidade`, taken only when the sufficiency check passed). -/
theorem venda_estoque_nao_negativo (st : EstadoVenda) (f : Faults)
    (h : ∀ p ∈ st.produtos, 0 ≤ p.estoque) :
    ∀ p ∈ (realizar_venda st f).2.produtos, 0 ≤ p.estoque := by
  cases hr : realizar_venda st f with
  | mk r st2 =>
    cases r with
    | error e =>
      have hpe := realizar_venda_erro_produtos st f e st2 hr
      show ∀ p ∈ st2.produtos, 0 ≤ p.estoque
      rw [hpe]
      exact h
    | ok resp =>
      obtain ⟨hne, t, db, hv, hresp, hst2⟩ := realizar_venda_ok_inv st f resp st2 hr
      show ∀ p ∈ st2.produtos, 0 ≤ p.estoque
      rw [hst2]
      show ∀ p ∈ db, 0 ≤ p.estoque
      exact venda_loop_nonneg f st.carrinho.itens st.produtos 0 0 t db hv h

/-- Witness for C3 on a concrete run with non-negative stocks: the committed
row after the checkout has stock 2 ≥ 0. -/
theorem venda_estoque_nao_negativo_witness :
    0 ≤ (Produto.mk 1 "A" "d" 10 2).estoque :=
  venda_estoque_nao_negativo ⟨⟨[⟨1, 3⟩]⟩, [⟨1, "A", "d", 10, 5⟩]⟩ fNone
    (by intro p hp; simp at hp; subst hp; decide)
    ⟨1, "A", "d", 10, 2⟩
    (by
      have h : (realizar_venda ⟨⟨[⟨1, 3⟩]⟩,
          [⟨1, "A", "d", 10, 5⟩]⟩ fNone).2.produtos = [⟨1, "A", "d", 10, 2⟩] := by
        with_unfolding_all rfl
      rw [h]
      exact List.mem_singleton.mpr rfl)

/-- C4: a checkout against an empty cart fails immediately with the
empty-cart error and returns the whole state untouched, whatever the fault
assignment (no transaction step is ever consulted). -/
theorem venda_sacola_vazia (st : EstadoVenda) (f : Faults)
    (h : st.carrinho.itens = []) :
    realizar_venda st f = (.error .sacolaVazia, st) := by
  rcases realizar_venda_unfold st f with ⟨hnil, heq⟩ | ⟨hne, hrest⟩
  · exact heq
  · exact absurd h hne

/-- Witness for C4: an empty cart rejects even under an all-failing fault
assignment, leaving cart and table untouched. -/
theorem venda_sacola_vazia_witness :
    realizar_venda ⟨⟨[]⟩, [⟨1, "A", "d", 10, 5⟩]⟩
        ⟨true, fun _ => true, fun _ => true, true⟩
      = (.error .sacolaVazia, ⟨⟨[]⟩, [⟨1, "A", "d", 10, 5⟩]⟩) :=
  venda_sacola_vazia ⟨⟨[]⟩, [⟨1, "A", "d", 10, 5⟩]⟩
    ⟨true, fun _ => true, fun _ => true, true⟩ rfl

/-- C5: when checkout fails with the insufficient-stock error, the committed
table is exactly the original one — the decrements of items processed before
the failing one are rolled back with the transaction. -/
theorem venda_estoque_insuficiente_rollback (st : EstadoVenda) (f : Faults)
    (nome : String) (st2 : EstadoVenda)
    (h : realizar_venda st f = (.error (.estoqueInsuficiente nome), st2)) :
    st2.produtos = st.produtos :=
  realizar_venda_erro_produtos st f (.estoqueInsuficiente nome) st2 h

/-- Witness for C5 on the spec's example: stock 5 for A, cart
[{A,3},{B,100}], B's stock 10 — checkout fails with insufficient stock on B
and A's committed stock remains 5. -/
theorem venda_estoque_insuficiente_rollback_witness :
    (realizar_venda ⟨⟨[⟨1, 3⟩, ⟨2, 100⟩]⟩,
        [⟨1, "A", "d", 10, 5⟩, ⟨2, "B", "d", 1, 10⟩]⟩ fNone
      = (.error (.estoqueInsuficiente "B"),
         ⟨⟨[]⟩, [⟨1, "A", "d", 10, 5⟩, ⟨2, "B", "d", 1, 10⟩]⟩)) ∧
    (⟨⟨[]⟩, [⟨1, "A", "d", (10 : Rat), 5⟩, ⟨2, "B", "d", 1, 10⟩]⟩
        : EstadoVenda).produtos
      = (⟨⟨[⟨1, 3⟩, ⟨2, 100⟩]⟩, [⟨1, "A", "d", 10, 5⟩, ⟨2, "B", "d", 1, 10⟩]⟩
        : EstadoVenda).produtos :=
  ⟨by with_unfolding_all rfl,
   venda_estoque_insuficiente_rollback
     ⟨⟨[⟨1, 3⟩, ⟨2, 100⟩]⟩, [⟨1, "A", "d", 10, 5⟩, ⟨2, "B", "d", 1, 10⟩]⟩ fNone "B"
     ⟨⟨[]⟩, [⟨1, "A", "d", 10, 5⟩, ⟨2, "B", "d", 1, 10⟩]⟩
     (by with_unfolding_all rfl)⟩

/-- C6: adding an item whose product exists in the table succeeds, leaves the
table untouched, and merges by product id: if no cart item carries the id the
item is appended at the end; if the first item carrying the id sits after an
id-free prefix, exactly that item's quantity is incremented in place and
nothing is appended. -/
theorem adicionar_item_merge (st : EstadoVenda) (item : ItemVenda)
    (hex : (buscar_produto st.produtos item.produto_id).isSome = true) :
    (adicionar_item_sacola st item false).1 = .ok () ∧
    (adicionar_item_sacola st item false).2.produtos = st.produtos ∧
    ((∀ y ∈ st.carrinho.itens, y.produto_id ≠ item.produto_id) →
      (adicionar_item_sacola st item false).2.carrinho.itens
        = st.carrinho.itens ++ [item]) ∧
    (∀ l1 x l2, st.carrinho.itens = l1 ++ x :: l2 →
      (∀ y ∈ l1, y.produto_id ≠ item.produto_id) → x.produto_id = item.produto_id →
      (adicionar_item_sacola st item false).2.carrinho.itens
        = l1 ++ { x with quantidade := x.quantidade + item.quantidade } :: l2) := by
  cases hb : buscar_produto st.produtos item.produto_id with
  | none => rw [hb] at hex; simp at hex
  | some p =>
    have hres : adicionar_item_sacola st item false
        = (.ok (), { st with carrinho := ⟨merge_item st.carrinho.itens item⟩ }) := by
      simp [adicionar_item_sacola, hb]
    refine ⟨by rw [hres], by rw [hres], ?_, ?_⟩
    · intro hnone
      rw [hres]
      show merge_item st.carrinho.itens item = st.carrinho.itens ++ [item]
      exact merge_item_ausente _ _ hnone
    · intro l1 x l2 hsplit hpre hx
      rw [hres]
      show merge_item st.carrinho.itens item = _
      rw [hsplit]
      exact merge_item_presente l1 x l2 item hpre hx

/-- Witness for C6: adding {product 1, quantity 2} twice to an empty cart
yields exactly one line item {1, 4}. -/
theorem adicionar_item_merge_witness :
    (adicionar_item_sacola
        (adicionar_item_sacola ⟨⟨[]⟩, [⟨1, "A", "d", 10, 5⟩]⟩ ⟨1, 2⟩ false).2
        ⟨1, 2⟩ false).2.carrinho.itens = [⟨1, 4⟩] := by
  have h := (adicionar_item_merge ⟨⟨[⟨1, 2⟩]⟩, [⟨1, "A", "d", 10, 5⟩]⟩ ⟨1, 2⟩
      (by decide)).2.2.2 [] ⟨1, 2⟩ [] rfl (by simp) rfl
  exact h

/-- C7: starting from the empty cart, any sequence of add, view and checkout
requests preserves the invariant of at most one line item per product id. -/
theorem sacola_sem_duplicatas (db : List Produto) (ops : List OpSacola) :
    semDuplicatas (execOps ⟨⟨[]⟩, db⟩ ops).carrinho.itens := by
  have main : ∀ (ops2 : List OpSacola) (st : EstadoVenda),
      semDuplicatas st.carrinho.itens → semDuplicatas (execOps st ops2).carrinho.itens := by
    intro ops2
    induction ops2 with
    | nil => exact fun st h => h
    | cons op rest ih =>
      intro st h
      show semDuplicatas (execOps (execOp st op) rest).carrinho.itens
      refine ih _ ?_
      cases op with
      | ver => exact h
      | adicionar item dbFail =>
        show semDuplicatas (adicionar_item_sacola st item dbFail).2.carrinho.itens
        by_cases hdb : dbFail = true
        · subst hdb
          simpa [adicionar_item_sacola] using h
        · have hdb2 : dbFail = false := by simpa using hdb
          subst hdb2
          cases hb : buscar_produto st.produtos item.produto_id with
          | none => simpa [adicionar_item_sacola, hb] using h
          | some p =>
            have hres : (adicionar_item_sacola st item false).2
                = { st with carrinho := ⟨merge_item st.carrinho.itens item⟩ } := by
              simp [adicionar_item_sacola, hb]
            rw [hres]
            exact merge_item_nodup _ _ h
      | venda f =>
        show semDuplicatas (realizar_venda st f).2.carrinho.itens
        by_cases hnil : st.carrinho.itens = []
        · rcases realizar_venda_unfold st f with ⟨hnil2, heq⟩ | ⟨hne, hrest⟩
          · rw [heq]; exact h
          · exact absurd hnil hne
        · have hc := realizar_venda_carrinho st f hnil
          show ((((realizar_venda st f).2.carrinho.itens).map
            (fun it => it.produto_id)).Nodup)
          rw [hc]
          simp
  exact main ops ⟨⟨[]⟩, db⟩ (by simp [semDuplicatas])

/-- C8: once a non-empty cart is drained by a checkout, the items are never
restored: whatever the outcome, the cart after the call is empty. -/
theorem sacola_nao_restaurada (st : EstadoVenda) (f : Faults)
    (hne : st.carrinho.itens ≠ []) :
    (realizar_venda st f).2.carrinho.itens = [] :=
  realizar_venda_carrinho st f hne

/-- Witness for C8: a transaction that fails to open still leaves the
drained cart empty. -/
theorem sacola_nao_restaurada_witness :
    (realizar_venda ⟨⟨[⟨1, 3⟩]⟩, [⟨1, "A", "d", 10, 5⟩]⟩
        ⟨true, fun _ => false, fun _ => false, false⟩).2.carrinho.itens = [] :=
  sacola_nao_restaurada ⟨⟨[⟨1, 3⟩]⟩, [⟨1, "A", "d", 10, 5⟩]⟩
    ⟨true, fun _ => false, fun _ => false, false⟩ (by simp)

/-- C9: quantity is a plain integer, never checked for positivity: adding an
item with quantity ≤ 0 succeeds whenever the product exists; a checkout of a
single item with quantity ≤ 0 against stock ≥ 0 passes the sufficiency check
and commits `estoque - quantidade` (an increase by |quantity|) with total
`preco * quantidade`, which is negative for a positive price and a negative
quantity. -/
theorem quantidade_sem_validacao :
    (∀ (st : EstadoVenda) (item : ItemVenda), item.quantidade ≤ 0 →
      (buscar_produto st.produtos item.produto_id).isSome = true →
      (adicionar_item_sacola st item false).1 = .ok ()) ∧
    (∀ (pid : Int) (nm ds : String) (pr : Rat) (s q : Int), q ≤ 0 → 0 ≤ s →
      realizar_venda ⟨⟨[⟨pid, q⟩]⟩, [⟨pid, nm, ds, pr, s⟩]⟩ fNone
        = (.ok ⟨pr * (q : Rat), "Venda processada e sacola limpa."⟩,
           ⟨⟨[]⟩, [⟨pid, nm, ds, pr, s - q⟩]⟩)) ∧
    (∀ (pr : Rat) (q : Int), 0 < pr → q < 0 → pr * (q : Rat) < 0) := by
  refine ⟨?_, ?_, ?_⟩
  · intro st item hq hex
    cases hb : buscar_produto st.produtos item.produto_id with
    | none => rw [hb] at hex; simp at hex
    | some p => simp [adicionar_item_sacola, hb]
  · intro pid nm ds pr s q hq hs
    have hguard : ¬ s < q := by omega
    simp [realizar_venda, drain_sacola, venda_loop, fNone, buscar_produto,
      atualizar_estoque, hguard]
  · intro pr q hpr hq
    have hqr : (q : Rat) < 0 := by exact_mod_cast hq
    exact mul_neg_of_pos_of_neg hpr hqr

/-- Witness for C9: quantity −2 against stock 5 and price 10 is accepted by
the cart, passes checkout, commits stock 7 and returns total −20 < 0. -/
theorem quantidade_sem_validacao_witness :
    ((adicionar_item_sacola ⟨⟨[]⟩, [⟨1, "A", "d", 10, 5⟩]⟩ ⟨1, -2⟩ false).1
        = .ok ()) ∧
    (realizar_venda ⟨⟨[⟨1, -2⟩]⟩, [⟨1, "A", "d", 10, 5⟩]⟩ fNone
      = (.ok ⟨10 * ((-2 : Int) : Rat), "Venda processada e sacola limpa."⟩,
         ⟨⟨[]⟩, [⟨1, "A", "d", 10, 5 - (-2)⟩]⟩)) ∧
    ((10 : Rat) * ((-2 : Int) : Rat) < 0) :=
  ⟨quantidade_sem_validacao.1 ⟨⟨[]⟩, [⟨1, "A", "d", 10, 5⟩]⟩ ⟨1, -2⟩ (by decide)
      (by decide),
   quantidade_sem_validacao.2.1 1 "A" "d" 10 5 (-2) (by decide) (by decide),
   quantidade_sem_validacao.2.2 10 (-2) (by norm_num) (by decide)⟩

/-- C10: the drain (emptiness check plus swap) is one atomic critical
section, so two concurrent checkouts serialize: for a cart holding exactly
one item, in either order exactly one drain obtains the item while the other
observes the empty cart, the final cart is empty; and an add merged into the
cart before a drain is never lost — the drain returns the whole merged cart. -/
theorem drain_exclusividade (c : Carrinho) (x : ItemVenda) (h : c.itens = [x])
    (aFirst : Bool) :
    (((dois_drains c aFirst).1 = some [x] ∧ (dois_drains c aFirst).2.1 = none) ∨
     ((dois_drains c aFirst).1 = none ∧ (dois_drains c aFirst).2.1 = some [x])) ∧
    (dois_drains c aFirst).2.2.itens = [] ∧
    (∀ (l : List ItemVenda) (it : ItemVenda),
      drain_sacola ⟨merge_item l it⟩ = (some (merge_item l it), ⟨[]⟩)) := by
  cases c with
  | mk itens =>
    simp only at h
    subst h
    refine ⟨?_, ?_, ?_⟩
    · cases aFirst with
      | true => left; constructor <;> rfl
      | false => right; constructor <;> rfl
    · cases aFirst <;> rfl
    · intro l it
      have hne := merge_item_ne_nil l it
      simp [drain_sacola, List.isEmpty_iff, hne]

/-- Witness for C10 at a concrete one-item cart and the first schedule. -/
theorem drain_exclusividade_witness :
    (((dois_drains ⟨[⟨1, 1⟩]⟩ true).1 = some [⟨1, 1⟩] ∧
        (dois_drains ⟨[⟨1, 1⟩]⟩ true).2.1 = none) ∨
     ((dois_drains ⟨[⟨1, 1⟩]⟩ true).1 = none ∧
        (dois_drains ⟨[⟨1, 1⟩]⟩ true).2.1 = some [⟨1, 1⟩])) ∧
    (dois_drains ⟨[⟨1, 1⟩]⟩ true).2.2.itens = [] ∧
    (∀ (l : List ItemVenda) (it : ItemVenda),
      drain_sacola ⟨merge_item l it⟩ = (some (merge_item l it), ⟨[]⟩)) :=
  drain_exclusividade ⟨[⟨1, 1⟩]⟩ ⟨1, 1⟩ rfl true
